import Mathlib

/-
Shallow embedding of the pashuthalam-medical claim workflow.

Sources embedded:
- src/db.py: `claim_recommendation`, `create_recommendation`,
  `get_recommendation_by_id`, `get_recommendation_items_by_recommendation_id`,
  `get_farmer_by_id`, `update_recommendation_item_dates`.
- src/app.py: `send_whatsapp_message` (the WhatsApp retry loop) and
  `claim_recommendation_route` (POST /recommendations/<id>/claim).

Modelling conventions:
- The MySQL database is a `DBState` record of lists of rows; a SQL
  `UPDATE ... WHERE` is a `List.map` guarded by the WHERE predicate, and the
  driver's affected-row count is `List.countP` of the WHERE predicate
  (every matched row really changes here, since `updated_at`/`claimed_at`
  are set to the fresh `now`).
- Calendar dates are integers (day numbers); `date + timedelta(days=n)` is
  integer addition, so `start + (d - 1)` is `start + d - 1` over `Int`
  (matching Python, where `d = 0` yields the day before the start date).
- Timestamps (`datetime.now()`) are passed in as an explicit `now : Nat`.
- A Python exception escaping to the route's outer `except` handler is an
  explicit `RouteResponse.err 500 ...` return at the raise point, keeping
  every database write committed before the raise (each write commits
  individually in src/db.py).
- Concurrent activity between the route's initial read and the guarded
  UPDATE of `claim_recommendation` is an explicit `interfere : DBState →
  DBState` applied to the state at exactly that point (identity when the
  request runs alone).
-/

/-- Row of the `medicine_recommendations` table (src/db.py). -/
structure Recommendation where
  id : Nat
  farmerId : Nat
  doctorId : Nat
  isClaimed : Bool
  claimedByShopId : Option Nat
  claimedAt : Option Nat
  claimNotes : Option String
  deriving DecidableEq

/-- Row of the `recommendation_items` table, restricted to the columns the
claim workflow reads or writes (src/db.py). -/
structure RecommendationItem where
  id : Nat
  recommendationId : Nat
  treatmentDays : Option Nat
  startDate : Option Int
  endDate : Option Int
  deriving DecidableEq

/-- Row of the `farmers` table, restricted to the columns the claim route
reads (src/db.py `get_farmer_by_id`). `mobileNo` is `none` for SQL NULL. -/
structure Farmer where
  id : Nat
  name : String
  mobileNo : Option String
  deriving DecidableEq

/-- The database state: the tables touched by the claim workflow, plus the
auto-increment counter used for new recommendation ids. -/
structure DBState where
  recs : List Recommendation
  items : List RecommendationItem
  farmers : List Farmer
  nextRecId : Nat
  deriving DecidableEq

/-- Embeds db.py `get_recommendation_by_id`: SELECT ... WHERE id = %s,
first row or None. -/
def get_recommendation_by_id (s : DBState) (rid : Nat) : Option Recommendation :=
  s.recs.find? (fun r => r.id == rid)

/-- Embeds db.py `get_recommendation_items_by_recommendation_id`: SELECT ...
WHERE recommendation_id = %s ORDER BY id. The state stores `items` in id
order, so the filter preserves the ORDER BY. -/
def get_recommendation_items_by_recommendation_id (s : DBState) (rid : Nat) :
    List RecommendationItem :=
  s.items.filter (fun it => it.recommendationId == rid)

/-- Embeds db.py `get_farmer_by_id`. -/
def get_farmer_by_id (s : DBState) (fid : Nat) : Option Farmer :=
  s.farmers.find? (fun f => f.id == fid)

/-- The SET clause of db.py `claim_recommendation`, applied to one matched
row. -/
def claimRecUpdate (shopId : Nat) (notes : Option String) (now : Nat)
    (r : Recommendation) : Recommendation :=
  { r with isClaimed := true, claimedByShopId := some shopId,
           claimedAt := some now, claimNotes := notes }

/-- The WHERE clause of db.py `claim_recommendation`:
`WHERE id = %s AND is_claimed = 0`. -/
def claimRecMatches (rid : Nat) (r : Recommendation) : Bool :=
  r.id == rid && !r.isClaimed

/-- Embeds db.py `claim_recommendation`: the guarded UPDATE, returning the
new state and `affected_rows > 0`. -/
def claim_recommendation (s : DBState) (rid shopId : Nat) (notes : Option String)
    (now : Nat) : DBState × Bool :=
  let affected := s.recs.countP (claimRecMatches rid)
  ({ s with recs := s.recs.map (fun r =>
      if claimRecMatches rid r then claimRecUpdate shopId notes now r else r) },
   decide (0 < affected))

/-- Embeds db.py `create_recommendation`: INSERT with `is_claimed = 0` and
the claim columns left NULL; returns the new auto-increment id. -/
def create_recommendation (s : DBState) (farmerId doctorId : Nat) : DBState × Nat :=
  let newRec : Recommendation :=
    { id := s.nextRecId, farmerId := farmerId, doctorId := doctorId,
      isClaimed := false, claimedByShopId := none, claimedAt := none,
      claimNotes := none }
  ({ s with recs := s.recs ++ [newRec], nextRecId := s.nextRecId + 1 },
   s.nextRecId)

/-- Embeds db.py `update_recommendation_item_dates`: UPDATE of start/end
dates WHERE id = %s; returns affected rows > 0. -/
def update_recommendation_item_dates (s : DBState) (itemId : Nat) (sd ed : Int) :
    DBState × Bool :=
  let affected := s.items.countP (fun it => it.id == itemId)
  ({ s with items := s.items.map (fun it =>
      if it.id == itemId then { it with startDate := some sd, endDate := some ed }
      else it) },
   decide (0 < affected))

/-- Outcome of one gateway attempt inside the retry loop of app.py
`send_whatsapp_message`: an HTTP response with a status code, a
`requests.exceptions.Timeout`, a `requests.exceptions.ConnectionError`, any
other `requests.exceptions.RequestException` (caught by the function's outer
handler), or any other unexpected exception (also caught by the outer
handler). -/
inductive GatewayOutcome where
  | response (status : Nat)
  | timeout
  | connError
  | reqException (msg : String)
  | otherException (msg : String)
  deriving DecidableEq

/-- An outcome on which the retry loop of `send_whatsapp_message` moves on
to another attempt instead of returning: rate-limit 429, timeout, or
connection error. -/
def retryableOutcome : GatewayOutcome → Bool
  | .response st => st == 429
  | .timeout => true
  | .connError => true
  | .reqException _ => false
  | .otherException _ => false

/-- The `for attempt in range(max_retries)` loop of app.py
`send_whatsapp_message`. `a` is the current attempt index, `r` the number of
loop iterations still available (including this one); `r = 0` means the loop
has exhausted its range and control falls off the end of the function body,
which in Python returns `None` — modelled as `none`. A 429 on the final
iteration does not `continue`, so the loop also ends and yields `none`. -/
def sendAttempts (maxRetries : Nat) (outcomes : Nat → GatewayOutcome) :
    Nat → Nat → Option (Bool × String)
  | _, 0 => none
  | a, r + 1 =>
    match outcomes a with
    | .response st =>
      if st == 200 then
        some (true, "WhatsApp message sent successfully (attempt " ++
          toString (a + 1) ++ ")")
      else if st == 429 then
        if 0 < r then sendAttempts maxRetries outcomes (a + 1) r else none
      else
        some (false, "Failed to send WhatsApp message: HTTP " ++ toString st)
    | .timeout =>
      if 0 < r then sendAttempts maxRetries outcomes (a + 1) r
      else some (false, "WhatsApp API timeout after " ++ toString maxRetries ++
        " attempts")
    | .connError =>
      if 0 < r then sendAttempts maxRetries outcomes (a + 1) r
      else some (false, "WhatsApp API connection failed after " ++
        toString maxRetries ++ " attempts")
    | .reqException m => some (false, "Network error: " ++ m)
    | .otherException m => some (false, "Unexpected error: " ++ m)

/-- Embeds app.py `send_whatsapp_message`, abstracting over the message
payload (string formatting has no bearing on the control flow) and over the
gateway behaviour: `outcomes a` is what attempt `a` observes. The Python
function returns `(delivered, detail)` or — when control falls off the end
of the retry loop — the implicit `None`, hence the `Option` result. -/
def send_whatsapp_message (enabled : Bool) (maxRetries : Nat)
    (outcomes : Nat → GatewayOutcome) : Option (Bool × String) :=
  if enabled then sendAttempts maxRetries outcomes 0 maxRetries
  else some (false, "WhatsApp messaging is disabled in configuration")

/-- HTTP response of the claim route: an error status with its JSON error
message, or the 200 payload of a successful claim (app.py lines 815-826). -/
inductive RouteResponse where
  | err (status : Nat) (message : String)
  | ok (recommendationId shopId : Nat) (claimedAt : Nat) (startDate endDate : Int)
      (maxTreatmentDays : Nat) (notes : String) (whatsappSent : Bool)
      (whatsappMessage : String)
  deriving DecidableEq

/-- HTTP status code of a route response. -/
def RouteResponse.status : RouteResponse → Nat
  | .err st _ => st
  | .ok _ _ _ _ _ _ _ _ _ => 200

/-- The `start_date` field of the 200 payload, when the response is a 200. -/
def RouteResponse.okStartDate : RouteResponse → Option Int
  | .ok _ _ _ sd _ _ _ _ _ => some sd
  | .err _ _ => none

/-- The `end_date` field of the 200 payload, when the response is a 200. -/
def RouteResponse.okEndDate : RouteResponse → Option Int
  | .ok _ _ _ _ ed _ _ _ _ => some ed
  | .err _ _ => none

/-- The `max_treatment_days` field of the 200 payload. -/
def RouteResponse.okMaxDays : RouteResponse → Option Nat
  | .ok _ _ _ _ _ m _ _ _ => some m
  | .err _ _ => none

/-- The `whatsapp_sent` field of the 200 payload. -/
def RouteResponse.okWhatsappSent : RouteResponse → Option Bool
  | .ok _ _ _ _ _ _ _ ws _ => some ws
  | .err _ _ => none

/-- The `whatsapp_message` field of the 200 payload. -/
def RouteResponse.okWhatsappMessage : RouteResponse → Option String
  | .ok _ _ _ _ _ _ _ _ wm => some wm
  | .err _ _ => none

/-- Parsed JSON body of the claim request. `startDate = none` models an
absent/falsy `start_date`; `some none` a string `datetime.strptime` rejects;
`some (some d)` a string parsing to calendar date `d`. `notes` is
`data.get('notes', '')`. -/
structure ClaimRequestBody where
  startDate : Option (Option Int)
  notes : String
  deriving DecidableEq

/-- The Python truthiness test `farmer and farmer['mobile_no']` of app.py
line 780: the farmer row exists and its mobile number is neither NULL nor
the empty string. -/
def farmerHasMobile : Option Farmer → Bool
  | some f =>
    match f.mobileNo with
    | some m => !(m == "")
    | none => false
  | none => false

/-- Treatment-day counts the scheduler line of app.py (line 756) keeps:
`item['treatment_days'] for item in recommendation_items if
item['treatment_days']` — the truthy values, i.e. present and nonzero. -/
def usableTreatmentDays (items : List RecommendationItem) : List Nat :=
  (items.filterMap (fun it => it.treatmentDays)).filter (fun d => !(d == 0))

/-- Python `max` over a (nonempty) list of naturals, as a fold from 0. -/
def listMax (l : List Nat) : Nat := l.foldr Nat.max 0

/-- The item-date loop of app.py lines 766-768: for each read item in order,
compute `start + (treatment_days - 1)` and persist it. An item whose
`treatment_days` is NULL makes Python raise a `TypeError` (`None - 1`)
mid-loop; the second component is `false` at that point and the state keeps
every write made so far. -/
def updateItemDatesLoop (sd : Int) : DBState → List RecommendationItem → DBState × Bool
  | s, [] => (s, true)
  | s, it :: rest =>
    match it.treatmentDays with
    | none => (s, false)
    | some d =>
      updateItemDatesLoop sd
        (update_recommendation_item_dates s it.id sd (sd + (d : Int) - 1)).1 rest

/-- The result of the `success, message = send_whatsapp_message(...)` call
site (app.py lines 785-800): a returned pair is unpacked as-is; the implicit
Python `None` return makes the tuple unpacking raise, which the inner
`except` converts to `(False, "WhatsApp failed: ...")`. -/
def wsOutcomeOfSend : Option (Bool × String) → Bool × String
  | some p => p
  | none => (false, "WhatsApp failed: cannot unpack non-iterable NoneType object")

/-- Embeds app.py `claim_recommendation_route` (POST
/recommendations/<id>/claim, lines 717-829). `s` is the database state at
the route's initial read, `interfere` the concurrent activity committed
between that read and the guarded claim UPDATE, `sessionShopId` the session
`shop_id`, `sendResult` the value produced by `send_whatsapp_message` when
the route reaches it. Returns the final database state, the HTTP response,
and whether the WhatsApp gateway send was invoked. -/
def claim_recommendation_route (s : DBState) (interfere : DBState → DBState)
    (sessionShopId : Option Nat) (rid : Nat) (body : ClaimRequestBody)
    (sendResult : Option (Bool × String)) (now : Nat) :
    DBState × RouteResponse × Bool :=
  match sessionShopId with
  | none => (s, .err 401 "Shop not logged in", false)
  | some shopId =>
    match get_recommendation_by_id s rid with
    | none => (s, .err 404 "Recommendation not found", false)
    | some rec =>
      if rec.isClaimed then (s, .err 400 "Recommendation already claimed", false)
      else
        match body.startDate with
        | none => (s, .err 400 "Start date is required", false)
        | some none => (s, .err 400 "Invalid date format. Use YYYY-MM-DD", false)
        | some (some startDate) =>
          let items := get_recommendation_items_by_recommendation_id s rid
          if items.isEmpty then (s, .err 404 "No recommendation items found", false)
          else
            let usable := usableTreatmentDays items
            if usable.isEmpty then
              (s, .err 500
                "Failed to claim recommendation: max() arg is an empty sequence",
               false)
            else
              let maxTreatmentDays := listMax usable
              let endDate : Int := startDate + (maxTreatmentDays : Int) - 1
              let afterClaim :=
                claim_recommendation (interfere s) rid shopId (some body.notes) now
              if !afterClaim.2 then
                (afterClaim.1, .err 500 "Failed to claim recommendation", false)
              else
                let afterDates := updateItemDatesLoop startDate afterClaim.1 items
                if !afterDates.2 then
                  (afterDates.1, .err 500
                    "Failed to claim recommendation: unsupported operand types for -: NoneType and int",
                   false)
                else
                  let s3 := afterDates.1
                  let called := farmerHasMobile (get_farmer_by_id s3 rec.farmerId)
                  let ws :=
                    if called then wsOutcomeOfSend sendResult
                    else (false, "Farmer mobile number not available")
                  match get_recommendation_by_id s3 rid with
                  | none =>
                    (s3, .err 500
                      "Failed to claim recommendation: NoneType object is not subscriptable",
                     called)
                  | some updated =>
                    (s3, .ok rid shopId (updated.claimedAt.getD now) startDate
                      endDate maxTreatmentDays body.notes ws.1 ws.2, called)

/-- Demo rows shared by the concrete witnesses and counterexamples below. -/
def demoRec : Recommendation :=
  { id := 1, farmerId := 1, doctorId := 1, isClaimed := false,
    claimedByShopId := none, claimedAt := none, claimNotes := none }

/-- Demo item with a usable 5-day treatment plan. -/
def demoItemA : RecommendationItem :=
  { id := 10, recommendationId := 1, treatmentDays := some 5,
    startDate := none, endDate := none }

/-- Demo item whose `treatment_days` column is NULL. -/
def demoItemB : RecommendationItem :=
  { id := 11, recommendationId := 1, treatmentDays := none,
    startDate := none, endDate := none }

/-- Demo farmer with a mobile number on file. -/
def demoFarmer : Farmer := { id := 1, name := "Raman", mobileNo := some "919876543210" }

/-- Demo state: one unclaimed recommendation with one well-formed item. -/
def demoState : DBState :=
  { recs := [demoRec], items := [demoItemA], farmers := [demoFarmer], nextRecId := 2 }

/-- Demo state whose recommendation has one well-formed item and one item
with NULL treatment days. -/
def demoStateMixed : DBState :=
  { recs := [demoRec], items := [demoItemA, demoItemB], farmers := [demoFarmer],
    nextRecId := 2 }

/-- Demo state whose recommendation has no items at all. -/
def demoStateNoItems : DBState :=
  { recs := [demoRec], items := [], farmers := [demoFarmer], nextRecId := 2 }

/-- Demo state whose farmer table is empty. -/
def demoStateNoFarmer : DBState :=
  { recs := [demoRec], items := [demoItemA], farmers := [], nextRecId := 2 }

/-- Demo request body: a start date that parses, and a note. -/
def demoBody : ClaimRequestBody := { startDate := some (some 0), notes := "urgent" }

/-- Concurrent interference that claims recommendation 1 for shop 99 between
the route's read and its own claim UPDATE. -/
def demoRaceInterference (s : DBState) : DBState :=
  (claim_recommendation s 1 99 none 50).1

/-- The WHERE guard of the claim UPDATE holds exactly for the target row
while it is still unclaimed. -/
theorem claimRecMatches_iff (rid : Nat) (r : Recommendation) :
    claimRecMatches rid r = true ↔ r.id = rid ∧ r.isClaimed = false := by
  simp [claimRecMatches, Bool.and_eq_true, beq_iff_eq, Bool.not_eq_true']

/-- C1. `claim_recommendation(id, shopId, notes)` is a single conditional
update: it returns true iff the state held a recommendation with that id
that was still unclaimed; it rewrites exactly the rows matching the
`id = %s AND is_claimed = 0` guard to the claimed form with the given shop,
timestamp and notes; it touches no other table; and whenever it returns
false the state is completely unchanged. -/
theorem claim_recommendation_conditional_update (s : DBState) (rid shopId : Nat)
    (notes : Option String) (now : Nat) :
    ((claim_recommendation s rid shopId notes now).2 = true ↔
      ∃ r ∈ s.recs, r.id = rid ∧ r.isClaimed = false) ∧
    (claim_recommendation s rid shopId notes now).1.items = s.items ∧
    (claim_recommendation s rid shopId notes now).1.farmers = s.farmers ∧
    (∀ i : Nat, (claim_recommendation s rid shopId notes now).1.recs[i]? =
      (s.recs[i]?).map (fun r =>
        if claimRecMatches rid r then claimRecUpdate shopId notes now r else r)) ∧
    ((claim_recommendation s rid shopId notes now).2 = false →
      (claim_recommendation s rid shopId notes now).1 = s) := by
  refine ⟨?_, rfl, rfl, ?_, ?_⟩
  · simp only [claim_recommendation, decide_eq_true_eq, List.countP_pos_iff]
    constructor
    · rintro ⟨r, hr, hmatch⟩
      exact ⟨r, hr, (claimRecMatches_iff rid r).1 hmatch⟩
    · rintro ⟨r, hr, hprop⟩
      exact ⟨r, hr, (claimRecMatches_iff rid r).2 hprop⟩
  · intro i
    simp [claim_recommendation, List.getElem?_map]
  · intro hfalse
    have hcount : s.recs.countP (claimRecMatches rid) = 0 := by
      by_contra hne
      have hpos : 0 < s.recs.countP (claimRecMatches rid) := Nat.pos_of_ne_zero hne
      simp [claim_recommendation, hpos] at hfalse
    have hall : ∀ r ∈ s.recs, ¬ (claimRecMatches rid r = true) :=
      List.countP_eq_zero.1 hcount
    have hmap : s.recs.map (fun r =>
        if claimRecMatches rid r then claimRecUpdate shopId notes now r else r)
        = s.recs := by
      calc s.recs.map (fun r =>
            if claimRecMatches rid r then claimRecUpdate shopId notes now r else r)
          = s.recs.map id :=
            List.map_congr_left (fun r hr => by
              simp only [id]
              exact if_neg (hall r hr))
        _ = s.recs := List.map_id s.recs
    simp only [claim_recommendation]
    rw [hmap]

/-- Witness for C1: on the demo state, the unclaimed recommendation 1 makes
the conditional update report success. -/
theorem claim_recommendation_conditional_update_witness :
    (claim_recommendation demoState 1 7 (some "urgent") 100).2 = true :=
  (claim_recommendation_conditional_update demoState 1 7 (some "urgent") 100).1.mpr
    ⟨demoRec, by decide, rfl, rfl⟩

/-- The data-model invariant of the spec: a recommendation is unclaimed iff
both claim columns are NULL. -/
def ClaimInvariant (s : DBState) : Prop :=
  ∀ r ∈ s.recs, (r.isClaimed = false ↔ (r.claimedByShopId = none ∧ r.claimedAt = none))

/-- One write operation of the store: db.py `create_recommendation` or
db.py `claim_recommendation`, with arbitrary arguments. -/
inductive StoreStep : DBState → DBState → Prop where
  | createStep (s : DBState) (farmerId doctorId : Nat) :
      StoreStep s (create_recommendation s farmerId doctorId).1
  | claimStep (s : DBState) (rid shopId : Nat) (notes : Option String) (now : Nat) :
      StoreStep s (claim_recommendation s rid shopId notes now).1

/-- A single store write preserves the claim invariant and leaves every
already-claimed row untouched (same position, all fields identical). -/
theorem storeStep_preserves (s s' : DBState) (h : StoreStep s s')
    (hinv : ClaimInvariant s) :
    ClaimInvariant s' ∧ ∀ (i : Nat) (r : Recommendation),
      s.recs[i]? = some r → r.isClaimed = true → s'.recs[i]? = some r := by
  cases h with
  | createStep farmerId doctorId =>
    constructor
    · intro r hr
      simp only [create_recommendation, List.mem_append, List.mem_singleton] at hr
      rcases hr with hr | rfl
      · exact hinv r hr
      · simp
    · intro i r hi _
      have hlt : i < s.recs.length := by
        by_contra hge
        rw [List.getElem?_eq_none (Nat.le_of_not_lt hge)] at hi
        exact Option.noConfusion hi
      simpa [create_recommendation, List.getElem?_append_left hlt] using hi
  | claimStep rid shopId notes now =>
    constructor
    · intro r' hr'
      simp only [claim_recommendation, List.mem_map] at hr'
      obtain ⟨r, hr, rfl⟩ := hr'
      by_cases hm : claimRecMatches rid r = true
      · rw [if_pos hm]
        simp [claimRecUpdate]
      · rw [if_neg hm]
        exact hinv r hr
    · intro i r hi hclaimed
      simp only [claim_recommendation, List.getElem?_map, hi, Option.map_some']
      simp [claimRecMatches, hclaimed]

/-- C7. Along any sequence of store writes (creates and claims) starting
from a state satisfying the claim invariant, the invariant is maintained,
and every recommendation that is claimed stays exactly as it is: its
`is_claimed` flag never reverts and its `claimed_by_shop_id` is never
reassigned, so the unclaimed-to-claimed transition happens at most once. -/
theorem store_claim_lifecycle (s s' : DBState)
    (h : Relation.ReflTransGen StoreStep s s') (hinv : ClaimInvariant s) :
    ClaimInvariant s' ∧ ∀ (i : Nat) (r : Recommendation),
      s.recs[i]? = some r → r.isClaimed = true → s'.recs[i]? = some r := by
  induction h with
  | refl => exact ⟨hinv, fun _ _ hi _ => hi⟩
  | tail _ hbc ih =>
    obtain ⟨invb, monb⟩ := ih
    obtain ⟨invc, monc⟩ := storeStep_preserves _ _ hbc invb
    exact ⟨invc, fun i r hi hc => monc i r (monb i r hi hc) hc⟩

/-- Witness for C7: one concrete claim step from the demo state keeps the
invariant. -/
theorem store_claim_lifecycle_witness :
    ClaimInvariant (claim_recommendation demoState 1 7 (some "urgent") 100).1 :=
  (store_claim_lifecycle demoState _
    (Relation.ReflTransGen.single (StoreStep.claimStep demoState 1 7 (some "urgent") 100))
    (by unfold ClaimInvariant; decide)).1

/-- Bounded universal over offsets shifts under a successor bound. -/
theorem ballLt_succ_shift (P : Nat → Prop) (a r : Nat) :
    (∀ j, j < r + 1 → P (a + j)) ↔ P a ∧ (∀ j, j < r → P (a + 1 + j)) := by
  constructor
  · intro h
    constructor
    · simpa using h 0 (Nat.succ_pos r)
    · intro j hj
      have h1 := h (j + 1) (Nat.succ_lt_succ hj)
      have e : a + (j + 1) = a + 1 + j := by omega
      rwa [e] at h1
  · rintro ⟨h0, hs⟩ j hj
    cases j with
    | zero => simpa using h0
    | succ j =>
      have h1 := hs j (Nat.lt_of_succ_lt_succ hj)
      have e : a + 1 + j = a + (j + 1) := by omega
      rwa [e] at h1

/-- The retry loop falls off its end (the Python `None` return) iff every
earlier attempt was retryable and the final available attempt observed a
429 rate limit. -/
theorem sendAttempts_eq_none_iff (m : Nat) (o : Nat → GatewayOutcome) :
    ∀ (r a : Nat), (sendAttempts m o a (r + 1) = none ↔
      (o (a + r) = .response 429 ∧
        ∀ j, j < r → retryableOutcome (o (a + j)) = true)) := by
  intro r
  induction r with
  | zero =>
    intro a
    cases ho : o a with
    | response st =>
      by_cases h200 : st = 200
      · subst h200
        simp [sendAttempts, ho]
      · by_cases h429 : st = 429
        · subst h429
          simp [sendAttempts, ho]
        · simp [sendAttempts, ho, beq_iff_eq, h200, h429]
    | timeout => simp [sendAttempts, ho]
    | connError => simp [sendAttempts, ho]
    | reqException msg => simp [sendAttempts, ho]
    | otherException msg => simp [sendAttempts, ho]
  | succ r ih =>
    intro a
    rw [ballLt_succ_shift (fun n => retryableOutcome (o n) = true) a r]
    rw [show a + (r + 1) = a + 1 + r from by omega]
    cases ho : o a with
    | response st =>
      by_cases h200 : st = 200
      · subst h200
        have hstep : sendAttempts m o a (r + 1 + 1)
            = some (true, "WhatsApp message sent successfully (attempt " ++
                toString (a + 1) ++ ")") := by
          rw [sendAttempts, ho]
          simp
        rw [hstep]
        simp [ho, retryableOutcome]
      · by_cases h429 : st = 429
        · subst h429
          have hstep : sendAttempts m o a (r + 1 + 1)
              = sendAttempts m o (a + 1) (r + 1) := by
            rw [sendAttempts, ho]
            simp
          rw [hstep, ih (a + 1)]
          simp [ho, retryableOutcome]
        · have hstep : sendAttempts m o a (r + 1 + 1)
              = some (false, "Failed to send WhatsApp message: HTTP " ++ toString st) := by
            rw [sendAttempts, ho]
            simp [beq_iff_eq, h200, h429]
          rw [hstep]
          simp [ho, retryableOutcome, h429]
    | timeout =>
      have hstep : sendAttempts m o a (r + 1 + 1)
          = sendAttempts m o (a + 1) (r + 1) := by
        rw [sendAttempts, ho]
        simp
      rw [hstep, ih (a + 1)]
      simp [ho, retryableOutcome]
    | connError =>
      have hstep : sendAttempts m o a (r + 1 + 1)
          = sendAttempts m o (a + 1) (r + 1) := by
        rw [sendAttempts, ho]
        simp
      rw [hstep, ih (a + 1)]
      simp [ho, retryableOutcome]
    | reqException msg =>
      have hstep : sendAttempts m o a (r + 1 + 1)
          = some (false, "Network error: " ++ msg) := by
        rw [sendAttempts, ho]
      rw [hstep]
      simp [ho, retryableOutcome]
    | otherException msg =>
      have hstep : sendAttempts m o a (r + 1 + 1)
          = some (false, "Unexpected error: " ++ msg) := by
        rw [sendAttempts, ho]
      rw [hstep]
      simp [ho, retryableOutcome]

/-- Appending anything to a nonempty string stays nonempty. -/
theorem append_ne_empty_left (p q : String) (hp : p ≠ "") : p ++ q ≠ "" := by
  intro hcon
  apply hp
  have hd := congrArg String.data hcon
  rw [String.data_append] at hd
  have hp0 : p.data = [] := (List.append_eq_nil.mp hd).1
  exact String.ext hp0

/-- Shifting the "the loop reaches an HTTP 200" predicate across one
retryable, non-200 attempt. -/
theorem reach200_succ_iff (o : Nat → GatewayOutcome) (a r : Nat)
    (hret : retryableOutcome (o a) = true) (hnot : o a ≠ .response 200) :
    (∃ k, k < r + 1 ∧ o (a + k) = .response 200 ∧
      ∀ j, j < k → retryableOutcome (o (a + j)) = true)
    ↔ (∃ k, k < r ∧ o (a + 1 + k) = .response 200 ∧
      ∀ j, j < k → retryableOutcome (o (a + 1 + j)) = true) := by
  constructor
  · rintro ⟨k, hk, h200, hpre⟩
    cases k with
    | zero => exact absurd (by simpa using h200) hnot
    | succ k1 =>
      refine ⟨k1, by omega, ?_, ?_⟩
      · have e : a + (k1 + 1) = a + 1 + k1 := by omega
        rwa [e] at h200
      · exact ((ballLt_succ_shift (fun n => retryableOutcome (o n) = true) a
          k1).mp hpre).2
  · rintro ⟨k, hk, h200, hpre⟩
    refine ⟨k + 1, by omega, ?_, ?_⟩
    · have e : a + (k + 1) = a + 1 + k := by omega
      rwa [e]
    · exact (ballLt_succ_shift (fun n => retryableOutcome (o n) = true) a
        k).mpr ⟨hret, hpre⟩

/-- Shape of every pair the retry loop returns: the detail string is
nonempty, and delivered is true exactly when the loop really reached an
attempt that observed HTTP 200 (every earlier attempt retryable) — so every
failure mode yields delivered = false with a reason. -/
theorem sendAttempts_pair_shape (m : Nat) (o : Nat → GatewayOutcome) :
    ∀ (r a : Nat) (d : Bool) (detail : String),
      sendAttempts m o a r = some (d, detail) →
      (detail ≠ "" ∧
        (d = true ↔ ∃ k, k < r ∧ o (a + k) = .response 200 ∧
          ∀ j, j < k → retryableOutcome (o (a + j)) = true)) := by
  intro r
  induction r with
  | zero =>
    intro a d detail h
    exact Option.noConfusion h
  | succ r ih =>
    intro a d detail h
    cases ho : o a with
    | response st =>
      by_cases h200 : st = 200
      · subst h200
        have hs : sendAttempts m o a (r + 1)
            = some (true, "WhatsApp message sent successfully (attempt " ++
                toString (a + 1) ++ ")") := by
          rw [sendAttempts, ho]
          simp
        rw [hs] at h
        obtain ⟨hd, hdet⟩ : true = d ∧
            ("WhatsApp message sent successfully (attempt " ++
              toString (a + 1) ++ ")") = detail := by
          simpa using h
        subst hd
        subst hdet
        refine ⟨append_ne_empty_left _ _ (append_ne_empty_left _ _ (by decide)),
          ?_⟩
        simp only [true_iff]
        exact ⟨0, Nat.succ_pos r, by simpa using ho,
          fun j hj => absurd hj (Nat.not_lt_zero j)⟩
      · by_cases h429 : st = 429
        · subst h429
          cases r with
          | zero =>
            have hs : sendAttempts m o a 1 = none := by
              rw [sendAttempts, ho]
              simp
            rw [hs] at h
            exact Option.noConfusion h
          | succ r1 =>
            have hs : sendAttempts m o a (r1 + 1 + 1)
                = sendAttempts m o (a + 1) (r1 + 1) := by
              rw [sendAttempts, ho]
              simp
            rw [hs] at h
            obtain ⟨hdet, hiff⟩ := ih (a + 1) d detail h
            refine ⟨hdet, ?_⟩
            rw [hiff]
            exact (reach200_succ_iff o a (r1 + 1) (by rw [ho]; rfl)
              (by simp [ho])).symm
        · have hs : sendAttempts m o a (r + 1)
              = some (false, "Failed to send WhatsApp message: HTTP " ++
                  toString st) := by
            rw [sendAttempts, ho]
            simp [beq_iff_eq, h200, h429]
          rw [hs] at h
          obtain ⟨hd, hdet⟩ : false = d ∧
              ("Failed to send WhatsApp message: HTTP " ++ toString st)
                = detail := by
            simpa using h
          subst hd
          subst hdet
          refine ⟨append_ne_empty_left _ _ (by decide), ?_⟩
          apply iff_of_false (by simp)
          rintro ⟨k, hk, hk200, hpre⟩
          cases k with
          | zero =>
            rw [Nat.add_zero, ho] at hk200
            exact h200 (by simpa using hk200)
          | succ k1 =>
            have h0 := hpre 0 (Nat.succ_pos k1)
            rw [Nat.add_zero, ho] at h0
            simp [retryableOutcome, h429] at h0
    | timeout =>
      cases r with
      | zero =>
        have hs : sendAttempts m o a 1
            = some (false, "WhatsApp API timeout after " ++ toString m ++
                " attempts") := by
          rw [sendAttempts, ho]
          simp
        rw [hs] at h
        obtain ⟨hd, hdet⟩ : false = d ∧
            ("WhatsApp API timeout after " ++ toString m ++ " attempts")
              = detail := by
          simpa using h
        subst hd
        subst hdet
        refine ⟨append_ne_empty_left _ _ (append_ne_empty_left _ _ (by decide)),
          ?_⟩
        apply iff_of_false (by simp)
        rintro ⟨k, hk, hk200, _⟩
        have hk0 : k = 0 := by omega
        subst hk0
        rw [Nat.add_zero, ho] at hk200
        exact GatewayOutcome.noConfusion hk200
      | succ r1 =>
        have hs : sendAttempts m o a (r1 + 1 + 1)
            = sendAttempts m o (a + 1) (r1 + 1) := by
          rw [sendAttempts, ho]
          simp
        rw [hs] at h
        obtain ⟨hdet, hiff⟩ := ih (a + 1) d detail h
        refine ⟨hdet, ?_⟩
        rw [hiff]
        exact (reach200_succ_iff o a (r1 + 1) (by rw [ho]; rfl)
          (by simp [ho])).symm
    | connError =>
      cases r with
      | zero =>
        have hs : sendAttempts m o a 1
            = some (false, "WhatsApp API connection failed after " ++
                toString m ++ " attempts") := by
          rw [sendAttempts, ho]
          simp
        rw [hs] at h
        obtain ⟨hd, hdet⟩ : false = d ∧
            ("WhatsApp API connection failed after " ++ toString m ++
              " attempts") = detail := by
          simpa using h
        subst hd
        subst hdet
        refine ⟨append_ne_empty_left _ _ (append_ne_empty_left _ _ (by decide)),
          ?_⟩
        apply iff_of_false (by simp)
        rintro ⟨k, hk, hk200, _⟩
        have hk0 : k = 0 := by omega
        subst hk0
        rw [Nat.add_zero, ho] at hk200
        exact GatewayOutcome.noConfusion hk200
      | succ r1 =>
        have hs : sendAttempts m o a (r1 + 1 + 1)
            = sendAttempts m o (a + 1) (r1 + 1) := by
          rw [sendAttempts, ho]
          simp
        rw [hs] at h
        obtain ⟨hdet, hiff⟩ := ih (a + 1) d detail h
        refine ⟨hdet, ?_⟩
        rw [hiff]
        exact (reach200_succ_iff o a (r1 + 1) (by rw [ho]; rfl)
          (by simp [ho])).symm
    | reqException msg =>
      have hs : sendAttempts m o a (r + 1)
          = some (false, "Network error: " ++ msg) := by
        rw [sendAttempts, ho]
      rw [hs] at h
      obtain ⟨hd, hdet⟩ : false = d ∧ ("Network error: " ++ msg) = detail := by
        simpa using h
      subst hd
      subst hdet
      refine ⟨append_ne_empty_left _ _ (by decide), ?_⟩
      apply iff_of_false (by simp)
      rintro ⟨k, hk, hk200, hpre⟩
      cases k with
      | zero =>
        rw [Nat.add_zero, ho] at hk200
        exact GatewayOutcome.noConfusion hk200
      | succ k1 =>
        have h0 := hpre 0 (Nat.succ_pos k1)
        rw [Nat.add_zero, ho] at h0
        simp [retryableOutcome] at h0
    | otherException msg =>
      have hs : sendAttempts m o a (r + 1)
          = some (false, "Unexpected error: " ++ msg) := by
        rw [sendAttempts, ho]
      rw [hs] at h
      obtain ⟨hd, hdet⟩ : false = d ∧ ("Unexpected error: " ++ msg) = detail := by
        simpa using h
      subst hd
      subst hdet
      refine ⟨append_ne_empty_left _ _ (by decide), ?_⟩
      apply iff_of_false (by simp)
      rintro ⟨k, hk, hk200, hpre⟩
      cases k with
      | zero =>
        rw [Nat.add_zero, ho] at hk200
        exact GatewayOutcome.noConfusion hk200
      | succ k1 =>
        have h0 := hpre 0 (Nat.succ_pos k1)
        rw [Nat.add_zero, ho] at h0
        simp [retryableOutcome] at h0

/-- Counterexample for C5: with the default three retries and the gateway
rate-limiting every attempt, `send_whatsapp_message` does not return a
`(delivered, detail)` pair at all — control falls off the retry loop and the
Python function returns `None`. -/
theorem send_whatsapp_not_always_pair :
    send_whatsapp_message true 3 (fun _ => .response 429) = none := rfl

/-- C5 (amended). `send_whatsapp_message` never raises (it is a total
function); every pair it returns carries a nonempty detail string and has
delivered = true exactly when the retry loop actually reached an attempt
that observed HTTP 200 — so disabled, timeout or connection exhaustion,
non-200 statuses and exceptions all return `(false, reason)`. It fails to
return a pair (Python `None`) in exactly one case: enabled with either
`maxRetries = 0` or every attempt before the last retryable (429, timeout,
or connection error) and the last available attempt observing HTTP 429. -/
theorem send_whatsapp_returns_pair_unless_rate_limit_exhaustion
    (enabled : Bool) (maxRetries : Nat) (outcomes : Nat → GatewayOutcome) :
    (send_whatsapp_message enabled maxRetries outcomes = none ↔
      (enabled = true ∧ (maxRetries = 0 ∨
        (outcomes (maxRetries - 1) = .response 429 ∧
          ∀ j, j < maxRetries - 1 → retryableOutcome (outcomes j) = true)))) ∧
    (∀ (d : Bool) (detail : String),
      send_whatsapp_message enabled maxRetries outcomes = some (d, detail) →
      (detail ≠ "" ∧
        (d = true ↔ (enabled = true ∧ ∃ a, a < maxRetries ∧
          outcomes a = .response 200 ∧
          ∀ j, j < a → retryableOutcome (outcomes j) = true)))) := by
  constructor
  · cases enabled with
    | false => simp [send_whatsapp_message]
    | true =>
      cases maxRetries with
      | zero => simp [send_whatsapp_message, sendAttempts]
      | succ r =>
        simp only [send_whatsapp_message, if_true, reduceIte]
        rw [sendAttempts_eq_none_iff (r + 1) outcomes r 0]
        simp
  · intro d detail h
    cases enabled with
    | false =>
      obtain ⟨hd, hdet⟩ : false = d ∧
          "WhatsApp messaging is disabled in configuration" = detail := by
        simpa [send_whatsapp_message] using h
      subst hd
      subst hdet
      refine ⟨by decide, ?_⟩
      simp
    | true =>
      have h1 : sendAttempts maxRetries outcomes 0 maxRetries
          = some (d, detail) := by
        simpa [send_whatsapp_message] using h
      obtain ⟨hdet, hiff⟩ :=
        sendAttempts_pair_shape maxRetries outcomes maxRetries 0 d detail h1
      refine ⟨hdet, ?_⟩
      rw [hiff]
      simp

/-- Witness for the amended C5: two rate-limited retries fall into the
characterized `None` case, and a run of three timeouts returns a pair whose
detail is a nonempty reason string. -/
theorem send_whatsapp_returns_pair_unless_rate_limit_exhaustion_witness :
    send_whatsapp_message true 2 (fun _ => .response 429) = none ∧
    "WhatsApp API timeout after 3 attempts" ≠ "" :=
  ⟨(send_whatsapp_returns_pair_unless_rate_limit_exhaustion true 2
      (fun _ => .response 429)).1.mpr ⟨rfl, Or.inr ⟨rfl, by decide⟩⟩,
   ((send_whatsapp_returns_pair_unless_rate_limit_exhaustion true 3
      (fun _ => GatewayOutcome.timeout)).2 false
      "WhatsApp API timeout after 3 attempts" rfl).1⟩

/-- Counterexample for C9: a first-attempt HTTP 201 — squarely in the 2xx
range — makes the dispatcher return `delivered = false`, not the immediate
`delivered = true` the claim asserts for any 2xx status. -/
theorem send_whatsapp_2xx_not_delivered :
    send_whatsapp_message true 3 (fun _ => .response 201)
      = some (false, "Failed to send WhatsApp message: HTTP 201") := rfl

/-- C9 (amended). In the retry loop, a first-attempt response with status
exactly 200 returns `delivered = true` immediately, and a first-attempt
status other than 200 and 429 — including other 2xx codes such as 201 —
returns `delivered = false` immediately after exactly one attempt: the
result does not depend on the outcomes of any later attempt. -/
theorem send_whatsapp_first_attempt_dispatch (maxRetries : Nat)
    (outcomes : Nat → GatewayOutcome) (st : Nat) (hm : 0 < maxRetries)
    (h0 : outcomes 0 = .response st) :
    (st = 200 → send_whatsapp_message true maxRetries outcomes =
      some (true, "WhatsApp message sent successfully (attempt 1)")) ∧
    (st ≠ 200 → st ≠ 429 → send_whatsapp_message true maxRetries outcomes =
      some (false, "Failed to send WhatsApp message: HTTP " ++ toString st)) := by
  obtain ⟨r, rfl⟩ : ∃ r, maxRetries = r + 1 := ⟨maxRetries - 1, by omega⟩
  constructor
  · rintro rfl
    simp [send_whatsapp_message, sendAttempts, h0]
    rfl
  · intro h200 h429
    simp [send_whatsapp_message, sendAttempts, h0, beq_iff_eq, h200, h429]

/-- Witness for the amended C9: a first-attempt 400 fails immediately. -/
theorem send_whatsapp_first_attempt_dispatch_witness :
    send_whatsapp_message true 3 (fun _ => .response 400)
      = some (false, "Failed to send WhatsApp message: HTTP 400") :=
  (send_whatsapp_first_attempt_dispatch 3 (fun _ => .response 400) 400
    (by decide) rfl).2 (by decide) (by decide)

/-- Item lookup by primary key, the view under which date persistence is
stated. -/
def itemById (s : DBState) (iid : Nat) : Option RecommendationItem :=
  s.items.find? (fun it => it.id == iid)

/-- The claim UPDATE touches only the recommendations table. -/
theorem claim_recommendation_items_eq (s : DBState) (rid shopId : Nat)
    (notes : Option String) (now : Nat) :
    (claim_recommendation s rid shopId notes now).1.items = s.items := rfl

/-- The claim UPDATE touches only the recommendations table. -/
theorem claim_recommendation_farmers_eq (s : DBState) (rid shopId : Nat)
    (notes : Option String) (now : Nat) :
    (claim_recommendation s rid shopId notes now).1.farmers = s.farmers := rfl

/-- The item-date loop touches only the items table. -/
theorem updateItemDatesLoop_recs_eq (sd : Int) :
    ∀ (its : List RecommendationItem) (s : DBState),
      (updateItemDatesLoop sd s its).1.recs = s.recs := by
  intro its
  induction its with
  | nil => intro s; rfl
  | cons it rest ih =>
    intro s
    cases h : it.treatmentDays with
    | none => simp [updateItemDatesLoop, h]
    | some d =>
      simp only [updateItemDatesLoop, h]
      rw [ih]
      rfl

/-- The item-date loop touches only the items table. -/
theorem updateItemDatesLoop_farmers_eq (sd : Int) :
    ∀ (its : List RecommendationItem) (s : DBState),
      (updateItemDatesLoop sd s its).1.farmers = s.farmers := by
  intro its
  induction its with
  | nil => intro s; rfl
  | cons it rest ih =>
    intro s
    cases h : it.treatmentDays with
    | none => simp [updateItemDatesLoop, h]
    | some d =>
      simp only [updateItemDatesLoop, h]
      rw [ih]
      rfl

/-- Recommendation lookup reads only the recommendations table. -/
theorem get_recommendation_by_id_eq_of_recs (s1 s2 : DBState) (rid : Nat)
    (h : s1.recs = s2.recs) :
    get_recommendation_by_id s1 rid = get_recommendation_by_id s2 rid := by
  unfold get_recommendation_by_id
  rw [h]

/-- Farmer lookup reads only the farmers table. -/
theorem get_farmer_by_id_eq_of_farmers (s1 s2 : DBState) (fid : Nat)
    (h : s1.farmers = s2.farmers) :
    get_farmer_by_id s1 fid = get_farmer_by_id s2 fid := by
  unfold get_farmer_by_id
  rw [h]

/-- After the claim UPDATE, looking up the target id finds the row with the
claim columns set — unless it was already claimed, in which case it is
returned unchanged. -/
theorem get_recommendation_by_id_after_claim (s : DBState) (rid shopId : Nat)
    (notes : Option String) (now : Nat) :
    get_recommendation_by_id (claim_recommendation s rid shopId notes now).1 rid
      = (get_recommendation_by_id s rid).map
          (fun r => if r.isClaimed then r else claimRecUpdate shopId notes now r) := by
  simp only [get_recommendation_by_id, claim_recommendation]
  induction s.recs with
  | nil => rfl
  | cons r rest ih =>
    by_cases hid : (r.id == rid) = true
    · have hidf : ((if claimRecMatches rid r then claimRecUpdate shopId notes now r
          else r).id == rid) = true := by
        by_cases hc : claimRecMatches rid r = true <;> simp [hc, claimRecUpdate, hid]
      simp only [List.map_cons, List.find?_cons, hidf, hid, Option.map_some']
      by_cases hcl : r.isClaimed = true
      · have hm : claimRecMatches rid r = false := by
          simp [claimRecMatches, hcl]
        simp [hm, hcl]
      · have hcl' : r.isClaimed = false := by
          simpa using hcl
        have hm : claimRecMatches rid r = true := by
          simp [claimRecMatches, hid, hcl']
        simp [hm, hcl']
    · have hid' : (r.id == rid) = false := by
        simpa using hid
      have hidf : ((if claimRecMatches rid r then claimRecUpdate shopId notes now r
          else r).id == rid) = false := by
        by_cases hc : claimRecMatches rid r = true <;> simp [hc, claimRecUpdate, hid']
      simp only [List.map_cons, List.find?_cons, hidf, hid']
      exact ih

/-- The claim UPDATE reports success whenever the initial read really did
see the target row unclaimed. -/
theorem claim_recommendation_succeeds_of_read (s : DBState) (rid shopId : Nat)
    (notes : Option String) (now : Nat) (rec : Recommendation)
    (hrec : get_recommendation_by_id s rid = some rec)
    (hunclaimed : rec.isClaimed = false) :
    (claim_recommendation s rid shopId notes now).2 = true := by
  simp only [get_recommendation_by_id] at hrec
  have hmem : rec ∈ s.recs := List.mem_of_find?_eq_some hrec
  have hid : (rec.id == rid) = true := by
    simpa using List.find?_some hrec
  simp only [claim_recommendation, decide_eq_true_eq]
  exact List.countP_pos_iff.mpr
    ⟨rec, hmem, by simp [claimRecMatches, hid, hunclaimed]⟩

/-- Two pointwise-equal predicates find the same first element. -/
theorem find?_ext {a : Type} (p q : a → Bool) (h : ∀ x, p x = q x) :
    ∀ l : List a, l.find? p = l.find? q := by
  intro l
  induction l with
  | nil => rfl
  | cons x rest ih =>
    simp only [List.find?_cons, h x, ih]

/-- Effect of the item-date UPDATE's row rewrite on `find?` by id: the
target id has its dates set; every other id is looked up unchanged. -/
theorem find?_setDates (iid j : Nat) (sd ed : Int) :
    ∀ l : List RecommendationItem,
      (l.map (fun it => if it.id == iid then
          { it with startDate := some sd, endDate := some ed } else it)).find?
        (fun it => it.id == j)
      = if j = iid then
          (l.find? (fun it => it.id == iid)).map (fun it =>
            { it with startDate := some sd, endDate := some ed })
        else l.find? (fun it => it.id == j) := by
  intro l
  rw [List.find?_map]
  have hpf : ∀ it : RecommendationItem,
      ((fun e => e.id == j) ∘ (fun it => if it.id == iid then
        { it with startDate := some sd, endDate := some ed } else it)) it
      = (it.id == j) := by
    intro it
    by_cases h : it.id = iid <;> simp [h]
  rw [find?_ext _ _ hpf l]
  by_cases hj : j = iid
  · subst hj
    cases hfind : l.find? (fun it => it.id == j) with
    | none => simp
    | some a =>
      have ha : (a.id == j) = true := by
        simpa using List.find?_some hfind
      have haj : a.id = j := by
        simpa using ha
      simp [Option.map_some', ha]
      intro hcon
      exact absurd haj hcon
  · rw [if_neg hj]
    cases hfind : l.find? (fun it => it.id == j) with
    | none => simp
    | some a =>
      have ha : (a.id == j) = true := by
        simpa using List.find?_some hfind
      have haj : a.id = j := by
        simpa using ha
      have hne : (a.id == iid) = false := by
        simp [haj, hj]
      simp [Option.map_some', hne]
      intro hcon
      exact absurd (by omega : j = iid) hj

/-- Effect of a single item-date UPDATE on lookup by id. -/
theorem itemById_update (s : DBState) (iid j : Nat) (sd ed : Int) :
    itemById (update_recommendation_item_dates s iid sd ed).1 j
      = if j = iid then
          (itemById s iid).map (fun it =>
            { it with startDate := some sd, endDate := some ed })
        else itemById s j := by
  simp only [itemById, update_recommendation_item_dates]
  exact find?_setDates iid j sd ed s.items

/-- In a table with pairwise-distinct ids, looking up a member row by its
own id finds exactly that row. -/
theorem find?_id_of_mem (l : List RecommendationItem)
    (hnd : (l.map (fun it => it.id)).Nodup) (it : RecommendationItem)
    (hm : it ∈ l) :
    l.find? (fun e => e.id == it.id) = some it := by
  induction l with
  | nil => cases hm
  | cons a rest ih =>
    obtain ⟨h1, h2⟩ : a.id ∉ rest.map (fun e => e.id) ∧
        (rest.map (fun e => e.id)).Nodup := by
      simpa [List.nodup_cons] using hnd
    rcases List.mem_cons.mp hm with rfl | hm'
    · exact List.find?_cons_of_pos rest (by simp)
    · have hne : (a.id == it.id) = false := by
        have hin : it.id ∈ rest.map (fun e => e.id) :=
          List.mem_map_of_mem (fun e => e.id) hm'
        simp only [beq_eq_false_iff_ne, ne_eq]
        intro hcon
        rw [hcon] at h1
        exact h1 hin
      simp only [List.find?_cons, hne]
      exact ih h2 hm'

/-- The item-date loop completes (no mid-loop TypeError) when every item it
visits carries a treatment-day count. -/
theorem updateItemDatesLoop_done (sd : Int) :
    ∀ (its : List RecommendationItem) (s : DBState),
      (∀ it ∈ its, it.treatmentDays ≠ none) →
      (updateItemDatesLoop sd s its).2 = true := by
  intro its
  induction its with
  | nil => intro s _; rfl
  | cons it rest ih =>
    intro s h
    cases hd : it.treatmentDays with
    | none => exact absurd hd (h it (List.mem_cons_self it rest))
    | some d =>
      simp only [updateItemDatesLoop, hd]
      exact ih _ (fun x hx => h x (List.mem_cons_of_mem it hx))

/-- The item-date loop raises mid-loop (Python TypeError on `None - 1`) when
it reaches an item without a treatment-day count. -/
theorem updateItemDatesLoop_fails (sd : Int) :
    ∀ (pre : List RecommendationItem) (s : DBState) (bad : RecommendationItem)
      (rest : List RecommendationItem),
      (∀ p ∈ pre, p.treatmentDays ≠ none) → bad.treatmentDays = none →
      (updateItemDatesLoop sd s (pre ++ bad :: rest)).2 = false := by
  intro pre
  induction pre with
  | nil =>
    intro s bad rest _ hbad
    simp [updateItemDatesLoop, hbad]
  | cons p rest' ih =>
    intro s bad rest hpre hbad
    cases hd : p.treatmentDays with
    | none => exact absurd hd (hpre p (List.mem_cons_self p rest'))
    | some d =>
      simp only [List.cons_append, updateItemDatesLoop, hd]
      exact ih _ bad rest (fun x hx => hpre x (List.mem_cons_of_mem p hx)) hbad

/-- When the loop completes over items with pairwise-distinct ids, each
visited item ends with its dates set from its own treatment-day count, and
every id outside the visited list is untouched. -/
theorem updateItemDatesLoop_itemById (sd : Int) :
    ∀ (its : List RecommendationItem) (s : DBState),
      (its.map (fun it => it.id)).Nodup →
      (updateItemDatesLoop sd s its).2 = true →
      ((∀ it ∈ its, ∃ d, it.treatmentDays = some d ∧
        itemById (updateItemDatesLoop sd s its).1 it.id
          = (itemById s it.id).map (fun e =>
              { e with startDate := some sd,
                       endDate := some (sd + (d : Int) - 1) })) ∧
       (∀ j, j ∉ its.map (fun it => it.id) →
         itemById (updateItemDatesLoop sd s its).1 j = itemById s j)) := by
  intro its
  induction its with
  | nil =>
    intro s _ _
    exact ⟨fun it hit => absurd hit (List.not_mem_nil it), fun j _ => rfl⟩
  | cons it rest ih =>
    intro s hnd hdone
    obtain ⟨hnotin, hnd'⟩ : it.id ∉ rest.map (fun e => e.id) ∧
        (rest.map (fun e => e.id)).Nodup := by
      simpa [List.nodup_cons] using hnd
    cases hd : it.treatmentDays with
    | none => simp [updateItemDatesLoop, hd] at hdone
    | some d =>
      have hdone' :
          (updateItemDatesLoop sd
            (update_recommendation_item_dates s it.id sd (sd + (d : Int) - 1)).1
            rest).2 = true := by
        simpa [updateItemDatesLoop, hd] using hdone
      obtain ⟨ih1, ih2⟩ := ih
        (update_recommendation_item_dates s it.id sd (sd + (d : Int) - 1)).1
        hnd' hdone'
      simp only [updateItemDatesLoop, hd]
      constructor
      · intro x hx
        rcases List.mem_cons.mp hx with rfl | hx'
        · refine ⟨d, hd, ?_⟩
          rw [ih2 x.id hnotin, itemById_update, if_pos rfl]
        · obtain ⟨dx, hdx, heq⟩ := ih1 x hx'
          refine ⟨dx, hdx, ?_⟩
          have hne : ¬ (x.id = it.id) := by
            intro hcon
            rw [← hcon] at hnotin
            exact hnotin (List.mem_map_of_mem (fun e => e.id) hx')
          rw [heq, itemById_update, if_neg hne]
      · intro j hj
        obtain ⟨hj1, hj2⟩ : ¬ (j = it.id) ∧ j ∉ rest.map (fun e => e.id) := by
          simpa using hj
        rw [ih2 j hj2, itemById_update, if_neg hj1]

/-- Dropping the zeros from a list of naturals does not change its maximum
under a zero seed. -/
theorem listMax_filter_nonzero (l : List Nat) :
    listMax (l.filter (fun d => !(d == 0))) = listMax l := by
  induction l with
  | nil => rfl
  | cons d rest ih =>
    by_cases h : d = 0
    · subst h
      simp only [List.filter_cons, beq_self_eq_true, Bool.not_true,
        Bool.false_eq_true, if_false]
      rw [ih]
      show listMax rest = Nat.max 0 (listMax rest)
      exact (Nat.max_eq_right (Nat.zero_le _)).symm
    · have hb : (!(d == 0)) = true := by
        simp [h]
      simp only [List.filter_cons, hb, if_true]
      show Nat.max d (listMax (rest.filter (fun d => !(d == 0))))
        = Nat.max d (listMax rest)
      rw [ih]

/-- Items selected for one recommendation inherit pairwise-distinct ids
from the items table. -/
theorem selected_items_ids_nodup (s : DBState) (rid : Nat)
    (hnd : (s.items.map (fun it => it.id)).Nodup) :
    ((get_recommendation_items_by_recommendation_id s rid).map
      (fun it => it.id)).Nodup := by
  have hsub : (get_recommendation_items_by_recommendation_id s rid).Sublist s.items :=
    List.filter_sublist s.items
  exact hnd.sublist (hsub.map (fun it => it.id))

/-- Counterexample for C2: recommendation 1 is read unclaimed, a concurrent
claimant takes it before the route's own claim UPDATE, the UPDATE reports
false — and the route answers HTTP 500 with the generic error text, not the
already-claimed 400 the claim requires. -/
theorem claim_route_race_loss_counterexample :
    get_recommendation_by_id demoState 1 = some demoRec ∧
    demoRec.isClaimed = false ∧
    (claim_recommendation (demoRaceInterference demoState) 1 7 (some "urgent") 100).2
      = false ∧
    (claim_recommendation_route demoState demoRaceInterference (some 7) 1 demoBody
      none 100).2.1 = RouteResponse.err 500 "Failed to claim recommendation" ∧
    (claim_recommendation_route demoState demoRaceInterference (some 7) 1 demoBody
      none 100).2.1.status ≠ 400 :=
  ⟨rfl, rfl, rfl, rfl, by decide⟩

/-- C2 (amended). When the route's initial read sees the recommendation
unclaimed but the claim UPDATE then reports false (the race was lost to
another claimant), the route responds HTTP 500 with the generic error
"Failed to claim recommendation" — it does not surface the already-claimed
condition as a 400. -/
theorem claim_route_race_loss_returns_500 (s : DBState)
    (interfere : DBState → DBState) (shopId rid : Nat) (body : ClaimRequestBody)
    (sendResult : Option (Bool × String)) (now : Nat) (rec : Recommendation)
    (sd : Int)
    (hrec : get_recommendation_by_id s rid = some rec)
    (hunclaimed : rec.isClaimed = false)
    (hstart : body.startDate = some (some sd))
    (hne : get_recommendation_items_by_recommendation_id s rid ≠ [])
    (husable : usableTreatmentDays (get_recommendation_items_by_recommendation_id s rid)
      ≠ [])
    (hlost : (claim_recommendation (interfere s) rid shopId (some body.notes) now).2
      = false) :
    claim_recommendation_route s interfere (some shopId) rid body sendResult now
      = ((claim_recommendation (interfere s) rid shopId (some body.notes) now).1,
         RouteResponse.err 500 "Failed to claim recommendation", false) := by
  simp [claim_recommendation_route, hrec, hunclaimed, hstart, hlost,
    List.isEmpty_iff, hne, husable]

/-- Witness for the amended C2: on the demo state with the racing
interference, the route returns the generic 500. -/
theorem claim_route_race_loss_returns_500_witness :
    claim_recommendation_route demoState demoRaceInterference (some 7) 1 demoBody
      none 100
      = ((claim_recommendation (demoRaceInterference demoState) 1 7 (some "urgent")
            100).1,
         RouteResponse.err 500 "Failed to claim recommendation", false) :=
  claim_route_race_loss_returns_500 demoState demoRaceInterference 7 1 demoBody
    none 100 demoRec 0 rfl rfl rfl (by decide) (by decide) rfl

/-- Counterexample for C8: an existing, unclaimed recommendation with an
empty item list and a valid request makes the route answer HTTP 404
("No recommendation items found"), not the 400 the claim requires. -/
theorem claim_route_no_items_counterexample :
    get_recommendation_by_id demoStateNoItems 1 = some demoRec ∧
    demoRec.isClaimed = false ∧
    get_recommendation_items_by_recommendation_id demoStateNoItems 1 = [] ∧
    (claim_recommendation_route demoStateNoItems (fun x => x) (some 7) 1 demoBody
      none 100).2.1 = RouteResponse.err 404 "No recommendation items found" ∧
    (claim_recommendation_route demoStateNoItems (fun x => x) (some 7) 1 demoBody
      none 100).2.1.status ≠ 400 :=
  ⟨rfl, rfl, rfl, rfl, by decide⟩

/-- C8 (amended). For an existing, unclaimed recommendation whose item list
is empty (with an authenticated session and a valid start date), the route
returns HTTP 404 with "No recommendation items found" — a not-found status,
not the 400 invalid-input status — and leaves the state untouched. -/
theorem claim_route_no_items_returns_404 (s : DBState)
    (interfere : DBState → DBState) (shopId rid : Nat) (body : ClaimRequestBody)
    (sendResult : Option (Bool × String)) (now : Nat) (rec : Recommendation)
    (sd : Int)
    (hrec : get_recommendation_by_id s rid = some rec)
    (hunclaimed : rec.isClaimed = false)
    (hstart : body.startDate = some (some sd))
    (hempty : get_recommendation_items_by_recommendation_id s rid = []) :
    claim_recommendation_route s interfere (some shopId) rid body sendResult now
      = (s, RouteResponse.err 404 "No recommendation items found", false) := by
  simp [claim_recommendation_route, hrec, hunclaimed, hstart, hempty]

/-- Witness for the amended C8: on the demo state with no items, the route
returns the 404. -/
theorem claim_route_no_items_returns_404_witness :
    claim_recommendation_route demoStateNoItems (fun x => x) (some 7) 1 demoBody
      none 100
      = (demoStateNoItems, RouteResponse.err 404 "No recommendation items found",
         false) :=
  claim_route_no_items_returns_404 demoStateNoItems (fun x => x) 7 1 demoBody
    none 100 demoRec 0 rfl rfl rfl rfl

/-- Item lookup reads only the items table. -/
theorem itemById_eq_of_items (s1 s2 : DBState) (iid : Nat)
    (h : s1.items = s2.items) : itemById s1 iid = itemById s2 iid := by
  unfold itemById
  rw [h]

/-- Full unfolding of the claim route along its success path: authenticated
session, recommendation read unclaimed, parseable start date, nonempty item
list, at least one usable treatment-day count, no concurrent interference,
and every item carrying a treatment-day count (so the date loop completes).
The route commits the claim, runs the date loop, and answers 200 with the
ClaimResult payload. -/
theorem claim_route_success_unfold (s : DBState) (shopId rid : Nat)
    (body : ClaimRequestBody) (sendResult : Option (Bool × String)) (now : Nat)
    (rec : Recommendation) (sd : Int)
    (hrec : get_recommendation_by_id s rid = some rec)
    (hunclaimed : rec.isClaimed = false)
    (hstart : body.startDate = some (some sd))
    (hne : get_recommendation_items_by_recommendation_id s rid ≠ [])
    (husable : usableTreatmentDays
      (get_recommendation_items_by_recommendation_id s rid) ≠ [])
    (hdays : ∀ it ∈ get_recommendation_items_by_recommendation_id s rid,
      it.treatmentDays ≠ none) :
    claim_recommendation_route s (fun x => x) (some shopId) rid body sendResult now
      = ((updateItemDatesLoop sd
            (claim_recommendation s rid shopId (some body.notes) now).1
            (get_recommendation_items_by_recommendation_id s rid)).1,
         RouteResponse.ok rid shopId now sd
           (sd + (listMax (usableTreatmentDays
              (get_recommendation_items_by_recommendation_id s rid)) : Int) - 1)
           (listMax (usableTreatmentDays
              (get_recommendation_items_by_recommendation_id s rid)))
           body.notes
           (if farmerHasMobile (get_farmer_by_id s rec.farmerId)
            then wsOutcomeOfSend sendResult
            else (false, "Farmer mobile number not available")).1
           (if farmerHasMobile (get_farmer_by_id s rec.farmerId)
            then wsOutcomeOfSend sendResult
            else (false, "Farmer mobile number not available")).2,
         farmerHasMobile (get_farmer_by_id s rec.farmerId)) := by
  have hclaim : (claim_recommendation s rid shopId (some body.notes) now).2 = true :=
    claim_recommendation_succeeds_of_read s rid shopId (some body.notes) now rec
      hrec hunclaimed
  have hloop : (updateItemDatesLoop sd
      (claim_recommendation s rid shopId (some body.notes) now).1
      (get_recommendation_items_by_recommendation_id s rid)).2 = true :=
    updateItemDatesLoop_done sd (get_recommendation_items_by_recommendation_id s rid)
      (claim_recommendation s rid shopId (some body.notes) now).1 hdays
  have hfarm : get_farmer_by_id (updateItemDatesLoop sd
      (claim_recommendation s rid shopId (some body.notes) now).1
      (get_recommendation_items_by_recommendation_id s rid)).1 rec.farmerId
      = get_farmer_by_id s rec.farmerId :=
    get_farmer_by_id_eq_of_farmers _ _ _
      (by rw [updateItemDatesLoop_farmers_eq]; rfl)
  have hget3 : get_recommendation_by_id (updateItemDatesLoop sd
      (claim_recommendation s rid shopId (some body.notes) now).1
      (get_recommendation_items_by_recommendation_id s rid)).1 rid
      = some (claimRecUpdate shopId (some body.notes) now rec) := by
    rw [get_recommendation_by_id_eq_of_recs _
      (claim_recommendation s rid shopId (some body.notes) now).1 rid
      (updateItemDatesLoop_recs_eq sd
        (get_recommendation_items_by_recommendation_id s rid) _)]
    rw [get_recommendation_by_id_after_claim, hrec, Option.map_some']
    simp [hunclaimed]
  have hne' : (get_recommendation_items_by_recommendation_id s rid).isEmpty = false := by
    simpa [List.isEmpty_iff] using hne
  have husable' : (usableTreatmentDays
      (get_recommendation_items_by_recommendation_id s rid)).isEmpty = false := by
    simpa [List.isEmpty_iff] using husable
  simp only [claim_recommendation_route, hrec, hunclaimed, hstart, hne', husable',
    hclaim, hloop, hget3, hfarm, Bool.false_eq_true, if_false, Bool.not_true,
    claimRecUpdate, Option.getD_some]

/-- After the claim UPDATE and any run of the item-date loop, looking up an
id that was read unclaimed finds the row in claimed form. -/
theorem get_recommendation_after_claim_and_loop (s : DBState) (rid shopId : Nat)
    (notes : Option String) (now : Nat) (sd : Int)
    (its : List RecommendationItem) (rec : Recommendation)
    (hrec : get_recommendation_by_id s rid = some rec)
    (hunclaimed : rec.isClaimed = false) :
    get_recommendation_by_id
      (updateItemDatesLoop sd (claim_recommendation s rid shopId notes now).1 its).1
      rid = some (claimRecUpdate shopId notes now rec) := by
  rw [get_recommendation_by_id_eq_of_recs _
    (claim_recommendation s rid shopId notes now).1 rid
    (updateItemDatesLoop_recs_eq sd its _)]
  rw [get_recommendation_by_id_after_claim, hrec, Option.map_some']
  simp [hunclaimed]

/-- C3. On every successful claim (200 response) with parsed start date
`sd` and no concurrent interference: the response's start date is `sd`, its
end date is `sd + (m - 1)` days and its max-treatment-days field is `m`,
where `m` is the maximum treatment-day count across the recommendation's
items; and every item is persisted with start date `sd` and end date
`sd + (d - 1)` for its own treatment-day count `d` (so `d = 1` ends on the
start date). -/
theorem claim_route_schedules_dates (s : DBState) (shopId rid : Nat)
    (body : ClaimRequestBody) (sendResult : Option (Bool × String)) (now : Nat)
    (rec : Recommendation) (sd : Int)
    (hnd : (s.items.map (fun it => it.id)).Nodup)
    (hrec : get_recommendation_by_id s rid = some rec)
    (hunclaimed : rec.isClaimed = false)
    (hstart : body.startDate = some (some sd))
    (hne : get_recommendation_items_by_recommendation_id s rid ≠ [])
    (husable : usableTreatmentDays
      (get_recommendation_items_by_recommendation_id s rid) ≠ [])
    (hdays : ∀ it ∈ get_recommendation_items_by_recommendation_id s rid,
      it.treatmentDays ≠ none) :
    (claim_recommendation_route s (fun x => x) (some shopId) rid body sendResult
      now).2.1.status = 200 ∧
    (claim_recommendation_route s (fun x => x) (some shopId) rid body sendResult
      now).2.1.okStartDate = some sd ∧
    (claim_recommendation_route s (fun x => x) (some shopId) rid body sendResult
      now).2.1.okEndDate
      = some (sd + (listMax ((get_recommendation_items_by_recommendation_id s
          rid).filterMap (fun it => it.treatmentDays)) : Int) - 1) ∧
    (claim_recommendation_route s (fun x => x) (some shopId) rid body sendResult
      now).2.1.okMaxDays
      = some (listMax ((get_recommendation_items_by_recommendation_id s
          rid).filterMap (fun it => it.treatmentDays))) ∧
    (∀ it ∈ get_recommendation_items_by_recommendation_id s rid, ∃ d,
      it.treatmentDays = some d ∧
      itemById (claim_recommendation_route s (fun x => x) (some shopId) rid body
        sendResult now).1 it.id
        = some { it with startDate := some sd,
                         endDate := some (sd + (d : Int) - 1) }) := by
  rw [claim_route_success_unfold s shopId rid body sendResult now rec sd hrec
    hunclaimed hstart hne husable hdays]
  refine ⟨rfl, rfl, ?_, ?_, ?_⟩
  · simp only [RouteResponse.okEndDate, usableTreatmentDays, listMax_filter_nonzero]
  · simp only [RouteResponse.okMaxDays, usableTreatmentDays, listMax_filter_nonzero]
  · intro it hit
    have hnodups := selected_items_ids_nodup s rid hnd
    have hdone := updateItemDatesLoop_done sd
      (get_recommendation_items_by_recommendation_id s rid)
      (claim_recommendation s rid shopId (some body.notes) now).1 hdays
    obtain ⟨ih1, _⟩ := updateItemDatesLoop_itemById sd
      (get_recommendation_items_by_recommendation_id s rid)
      (claim_recommendation s rid shopId (some body.notes) now).1 hnodups hdone
    obtain ⟨d, hd, heq⟩ := ih1 it hit
    refine ⟨d, hd, ?_⟩
    rw [heq, itemById_eq_of_items _ s it.id
      (claim_recommendation_items_eq s rid shopId (some body.notes) now)]
    have hmem : it ∈ s.items := by
      have hfil : it ∈ s.items.filter (fun x => x.recommendationId == rid) := hit
      exact List.mem_of_mem_filter hfil
    have hself : itemById s it.id = some it := by
      unfold itemById
      exact find?_id_of_mem s.items hnd it hmem
    rw [hself, Option.map_some']

/-- Witness for C3: on the demo state (one item of 5 treatment days, start
date 0) the route succeeds with status 200. -/
theorem claim_route_schedules_dates_witness :
    (claim_recommendation_route demoState (fun x => x) (some 7) 1 demoBody
      (some (true, "sent")) 100).2.1.status = 200 :=
  (claim_route_schedules_dates demoState 7 1 demoBody (some (true, "sent")) 100
    demoRec 0 (by decide) rfl rfl rfl (by decide) (by decide) (by decide)).1

/-- C4. Once the claim has committed along the success path, the HTTP
response is 200 with the ClaimResult payload for EVERY notification outcome
`sendResult` — a returned failure pair (disabled, timeout, connection
failure, non-2xx) or even the dispatcher returning no pair at all — and the
outcome is attached only as the `whatsapp_sent` / `whatsapp_message`
fields. -/
theorem claim_route_notification_isolated (s : DBState) (shopId rid : Nat)
    (body : ClaimRequestBody) (sendResult : Option (Bool × String)) (now : Nat)
    (rec : Recommendation) (sd : Int)
    (hrec : get_recommendation_by_id s rid = some rec)
    (hunclaimed : rec.isClaimed = false)
    (hstart : body.startDate = some (some sd))
    (hne : get_recommendation_items_by_recommendation_id s rid ≠ [])
    (husable : usableTreatmentDays
      (get_recommendation_items_by_recommendation_id s rid) ≠ [])
    (hdays : ∀ it ∈ get_recommendation_items_by_recommendation_id s rid,
      it.treatmentDays ≠ none)
    (hfarmer : farmerHasMobile (get_farmer_by_id s rec.farmerId) = true) :
    (claim_recommendation_route s (fun x => x) (some shopId) rid body sendResult
      now).2.1.status = 200 ∧
    (claim_recommendation_route s (fun x => x) (some shopId) rid body sendResult
      now).2.1.okWhatsappSent = some (wsOutcomeOfSend sendResult).1 ∧
    (claim_recommendation_route s (fun x => x) (some shopId) rid body sendResult
      now).2.1.okWhatsappMessage = some (wsOutcomeOfSend sendResult).2 ∧
    (claim_recommendation_route s (fun x => x) (some shopId) rid body sendResult
      now).2.2 = true := by
  rw [claim_route_success_unfold s shopId rid body sendResult now rec sd hrec
    hunclaimed hstart hne husable hdays]
  refine ⟨rfl, ?_, ?_, hfarmer⟩
  · simp [RouteResponse.okWhatsappSent, hfarmer]
  · simp [RouteResponse.okWhatsappMessage, hfarmer]

/-- Witness for C4: with the dispatcher returning no pair at all (its
rate-limit-exhaustion mode), the demo claim still answers 200. -/
theorem claim_route_notification_isolated_witness :
    (claim_recommendation_route demoState (fun x => x) (some 7) 1 demoBody none
      100).2.1.status = 200 :=
  (claim_route_notification_isolated demoState 7 1 demoBody none 100 demoRec 0
    rfl rfl rfl (by decide) (by decide) (by decide) rfl).1

/-- C10. When the farmer of a successfully claimed recommendation is absent
from the store or has no usable mobile number, the route makes no gateway
call, still answers 200 with the claim committed and all item dates
persisted, and reports `whatsapp_sent = false` with `whatsapp_message`
"Farmer mobile number not available". -/
theorem claim_route_missing_farmer_mobile (s : DBState) (shopId rid : Nat)
    (body : ClaimRequestBody) (sendResult : Option (Bool × String)) (now : Nat)
    (rec : Recommendation) (sd : Int)
    (hnd : (s.items.map (fun it => it.id)).Nodup)
    (hrec : get_recommendation_by_id s rid = some rec)
    (hunclaimed : rec.isClaimed = false)
    (hstart : body.startDate = some (some sd))
    (hne : get_recommendation_items_by_recommendation_id s rid ≠ [])
    (husable : usableTreatmentDays
      (get_recommendation_items_by_recommendation_id s rid) ≠ [])
    (hdays : ∀ it ∈ get_recommendation_items_by_recommendation_id s rid,
      it.treatmentDays ≠ none)
    (hnomobile : farmerHasMobile (get_farmer_by_id s rec.farmerId) = false) :
    (claim_recommendation_route s (fun x => x) (some shopId) rid body sendResult
      now).2.2 = false ∧
    (claim_recommendation_route s (fun x => x) (some shopId) rid body sendResult
      now).2.1.status = 200 ∧
    (claim_recommendation_route s (fun x => x) (some shopId) rid body sendResult
      now).2.1.okWhatsappSent = some false ∧
    (claim_recommendation_route s (fun x => x) (some shopId) rid body sendResult
      now).2.1.okWhatsappMessage = some "Farmer mobile number not available" ∧
    get_recommendation_by_id (claim_recommendation_route s (fun x => x)
      (some shopId) rid body sendResult now).1 rid
      = some (claimRecUpdate shopId (some body.notes) now rec) ∧
    (∀ it ∈ get_recommendation_items_by_recommendation_id s rid, ∃ d,
      it.treatmentDays = some d ∧
      itemById (claim_recommendation_route s (fun x => x) (some shopId) rid body
        sendResult now).1 it.id
        = some { it with startDate := some sd,
                         endDate := some (sd + (d : Int) - 1) }) := by
  rw [claim_route_success_unfold s shopId rid body sendResult now rec sd hrec
    hunclaimed hstart hne husable hdays]
  refine ⟨hnomobile, rfl, ?_, ?_, ?_, ?_⟩
  · simp [RouteResponse.okWhatsappSent, hnomobile]
  · simp [RouteResponse.okWhatsappMessage, hnomobile]
  · exact get_recommendation_after_claim_and_loop s rid shopId (some body.notes)
      now sd (get_recommendation_items_by_recommendation_id s rid) rec hrec
      hunclaimed
  · intro it hit
    have hnodups := selected_items_ids_nodup s rid hnd
    have hdone := updateItemDatesLoop_done sd
      (get_recommendation_items_by_recommendation_id s rid)
      (claim_recommendation s rid shopId (some body.notes) now).1 hdays
    obtain ⟨ih1, _⟩ := updateItemDatesLoop_itemById sd
      (get_recommendation_items_by_recommendation_id s rid)
      (claim_recommendation s rid shopId (some body.notes) now).1 hnodups hdone
    obtain ⟨d, hd, heq⟩ := ih1 it hit
    refine ⟨d, hd, ?_⟩
    rw [heq, itemById_eq_of_items _ s it.id
      (claim_recommendation_items_eq s rid shopId (some body.notes) now)]
    have hmem : it ∈ s.items := by
      have hfil : it ∈ s.items.filter (fun x => x.recommendationId == rid) := hit
      exact List.mem_of_mem_filter hfil
    have hself : itemById s it.id = some it := by
      unfold itemById
      exact find?_id_of_mem s.items hnd it hmem
    rw [hself, Option.map_some']

/-- Witness for C10: on the demo state with an empty farmer table, the
route makes no gateway call. -/
theorem claim_route_missing_farmer_mobile_witness :
    (claim_recommendation_route demoStateNoFarmer (fun x => x) (some 7) 1 demoBody
      none 100).2.2 = false :=
  (claim_route_missing_farmer_mobile demoStateNoFarmer 7 1 demoBody none 100
    demoRec 0 (by decide) rfl rfl rfl (by decide) (by decide) (by decide) rfl).1

/-- Counterexample for C6: on a recommendation whose items are one usable
5-day item and one item with NULL treatment days, the route does NOT fail
before claiming — the claim UPDATE runs and commits, the first item's dates
are persisted, and only then does the date loop blow up into a post-commit
HTTP 500. -/
theorem claim_route_unusable_item_counterexample :
    get_recommendation_by_id demoStateMixed 1 = some demoRec ∧
    demoRec.isClaimed = false ∧
    demoItemB ∈ get_recommendation_items_by_recommendation_id demoStateMixed 1 ∧
    demoItemB.treatmentDays = none ∧
    (claim_recommendation_route demoStateMixed (fun x => x) (some 7) 1 demoBody
      none 100).2.1
      = RouteResponse.err 500
          "Failed to claim recommendation: unsupported operand types for -: NoneType and int" ∧
    get_recommendation_by_id (claim_recommendation_route demoStateMixed
      (fun x => x) (some 7) 1 demoBody none 100).1 1
      = some (claimRecUpdate 7 (some "urgent") 100 demoRec) ∧
    itemById (claim_recommendation_route demoStateMixed (fun x => x) (some 7) 1
      demoBody none 100).1 10
      = some { demoItemA with startDate := some 0, endDate := some 4 } :=
  ⟨rfl, rfl, by decide, rfl, rfl, rfl, rfl⟩

/-- C6 (amended). Only when EVERY item lacks a usable treatment-day count
does the route fail before invoking the claim UPDATE — and then as a
generic 500 from the empty `max()`, with the state untouched. If at least
one item has a usable count, the claim proceeds: the claim UPDATE commits,
and an item with NULL treatment days then causes a post-commit generic 500
with the recommendation left claimed (and dates already written for items
processed before it). -/
theorem claim_route_unusable_days_behavior (s : DBState) (shopId rid : Nat)
    (body : ClaimRequestBody) (sendResult : Option (Bool × String)) (now : Nat)
    (rec : Recommendation) (sd : Int)
    (hrec : get_recommendation_by_id s rid = some rec)
    (hunclaimed : rec.isClaimed = false)
    (hstart : body.startDate = some (some sd))
    (hne : get_recommendation_items_by_recommendation_id s rid ≠ []) :
    (usableTreatmentDays (get_recommendation_items_by_recommendation_id s rid) = []
      → claim_recommendation_route s (fun x => x) (some shopId) rid body sendResult
          now
        = (s, RouteResponse.err 500
            "Failed to claim recommendation: max() arg is an empty sequence",
           false)) ∧
    (∀ pre bad rest,
      get_recommendation_items_by_recommendation_id s rid = pre ++ bad :: rest →
      (∀ p ∈ pre, p.treatmentDays ≠ none) → bad.treatmentDays = none →
      usableTreatmentDays (get_recommendation_items_by_recommendation_id s rid) ≠ []
      → ((claim_recommendation_route s (fun x => x) (some shopId) rid body
            sendResult now).2.1
          = RouteResponse.err 500
              "Failed to claim recommendation: unsupported operand types for -: NoneType and int" ∧
         get_recommendation_by_id (claim_recommendation_route s (fun x => x)
           (some shopId) rid body sendResult now).1 rid
           = some (claimRecUpdate shopId (some body.notes) now rec))) := by
  have hne' : (get_recommendation_items_by_recommendation_id s rid).isEmpty
      = false := by
    simpa [List.isEmpty_iff] using hne
  constructor
  · intro hu
    have hu' : (usableTreatmentDays
        (get_recommendation_items_by_recommendation_id s rid)).isEmpty = true := by
      simp [List.isEmpty_iff, hu]
    simp [claim_recommendation_route, hrec, hunclaimed, hstart, hne', hu']
  · intro pre bad rest hsplit hpre hbad hu
    have hu' : (usableTreatmentDays
        (get_recommendation_items_by_recommendation_id s rid)).isEmpty = false := by
      simpa [List.isEmpty_iff] using hu
    have hclaim : (claim_recommendation s rid shopId (some body.notes) now).2
        = true :=
      claim_recommendation_succeeds_of_read s rid shopId (some body.notes) now rec
        hrec hunclaimed
    have hloopfail : (updateItemDatesLoop sd
        (claim_recommendation s rid shopId (some body.notes) now).1
        (get_recommendation_items_by_recommendation_id s rid)).2 = false := by
      rw [hsplit]
      exact updateItemDatesLoop_fails sd pre _ bad rest hpre hbad
    constructor
    · simp [claim_recommendation_route, hrec, hunclaimed, hstart, hne', hu',
        hclaim, hloopfail]
    · have hroute : (claim_recommendation_route s (fun x => x) (some shopId) rid
          body sendResult now).1
          = (updateItemDatesLoop sd
              (claim_recommendation s rid shopId (some body.notes) now).1
              (get_recommendation_items_by_recommendation_id s rid)).1 := by
        simp [claim_recommendation_route, hrec, hunclaimed, hstart, hne', hu',
          hclaim, hloopfail]
      rw [hroute]
      exact get_recommendation_after_claim_and_loop s rid shopId (some body.notes)
        now sd (get_recommendation_items_by_recommendation_id s rid) rec hrec
        hunclaimed

/-- Witness for the amended C6: the mixed demo state takes the post-commit
failure branch. -/
theorem claim_route_unusable_days_behavior_witness :
    (claim_recommendation_route demoStateMixed (fun x => x) (some 7) 1 demoBody
      none 100).2.1
      = RouteResponse.err 500
          "Failed to claim recommendation: unsupported operand types for -: NoneType and int" :=
  ((claim_route_unusable_days_behavior demoStateMixed 7 1 demoBody none 100
      demoRec 0 rfl rfl rfl (by decide)).2 [demoItemA] demoItemB [] (by decide)
      (by decide) rfl (by decide)).1
